import Mathlib

/-!
Shallow embedding of `homeassistant/components/ephember/climate.py`
(jonahmurphy/homeassistant-core): the EPH Ember climate platform with its
hand-written zone-activity inference.

Modelling conventions:
* Temperatures are rationals (`ℚ`); the Python code only compares them, never
  does float arithmetic, so the comparisons are faithfully represented.
* A wall-clock time of day is a pair (hour, minute); `datetime.time` objects
  compare lexicographically, which `tle` mirrors.
* A zone is a Python dict; fields whose absence or malformedness the code can
  observe are `Option`s.  A schedule period stores the result of parsing its
  `starttime`/`endtime` strings: `none` stands for a string `strptime` rejects
  (raising `ValueError`), `some t` for a well-formed `"HH:MM"` string.
* Code that can raise a Python exception is embedded in `Except Unit`:
  `Except.error ()` is an escaping exception.  The bare `except:` around the
  timestamp read is modelled by `zone_ts_time` being total, with the current
  system time (`now`) substituted when `timestamp` is `none`.
* The pyephember accessors (`zone_mode`, `zone_name`, `zone_current_temperature`,
  `zone_target_temperature`, `zone_is_boost_active`, `zone_is_hot_water`) are
  external to this file's repository and are modelled as plain field reads.
-/

/-- A wall-clock time of day, as `datetime.time(hour, minute)`. -/
structure TimeOfDay where
  hour : Nat
  minute : Nat
deriving DecidableEq

/-- `datetime.time` comparison `a <= b` (lexicographic on hour, minute). -/
def tle (a b : TimeOfDay) : Bool :=
  decide (a.hour < b.hour) || (decide (a.hour = b.hour) && decide (a.minute ≤ b.minute))

/-- One schedule period: the parse results of its `starttime` / `endtime`
strings (`none` = malformed string, `strptime` would raise). -/
structure Period where
  starttime : Option TimeOfDay
  endtime : Option TimeOfDay
deriving DecidableEq

/-- One day's programme: periods `p1`, `p2`, `p3`. -/
structure DayProgramme where
  p1 : Period
  p2 : Period
  p3 : Period
deriving DecidableEq

/-- The `programmes` table: one programme per weekday key. -/
structure Programmes where
  monday : DayProgramme
  tuesday : DayProgramme
  wednesday : DayProgramme
  thursday : DayProgramme
  friday : DayProgramme
  saturday : DayProgramme
  sunday : DayProgramme
deriving DecidableEq

/-- The days in the order the Python `for day in [...]` loop visits them. -/
def Programmes.days (pr : Programmes) : List DayProgramme :=
  [pr.monday, pr.tuesday, pr.wednesday, pr.thursday, pr.friday, pr.saturday,
   pr.sunday]

/-- A `boostActivations` record (`targettemperature` / `numberofhours` read
with `.get`, so each key may be absent). -/
structure BoostActivation where
  targettemperature : Option ℚ
  numberofhours : Option ℚ
deriving DecidableEq

/-- The `ZoneMode` enum redefined in climate.py. -/
inductive ZoneMode where
  | AUTO
  | ALL_DAY
  | ON
  | OFF
deriving DecidableEq

/-- `ZoneMode.name` as Python's `Enum.name`. -/
def ZoneMode.name : ZoneMode → String
  | .AUTO => "AUTO"
  | .ALL_DAY => "ALL_DAY"
  | .ON => "ON"
  | .OFF => "OFF"

/-- A zone snapshot as the code observes it. -/
structure Zone where
  mode : ZoneMode
  name : String
  currentTemperature : ℚ
  targetTemperature : ℚ
  isHotWater : Bool
  isBoostActive : Bool
  /-- `zone['timestamp']` in milliseconds since the epoch; `none` = the key is
  missing or its value makes `zone['timestamp']/1000` raise. -/
  timestamp : Option Nat
  /-- `zone['programmes']`; `none` = key missing (`KeyError` on access). -/
  programmes : Option Programmes
  /-- `zone.get('isadvanceactive', False)` source value. -/
  isadvanceactive : Option Bool
  /-- `zone.get('boostActivations', None)`. -/
  boostActivations : Option BoostActivation
deriving DecidableEq

/-- pyephember accessor `zone_mode`. -/
def zone_mode (z : Zone) : ZoneMode := z.mode

/-- pyephember accessor `zone_name`. -/
def zone_name (z : Zone) : String := z.name

/-- pyephember accessor `zone_current_temperature`. -/
def zone_current_temperature (z : Zone) : ℚ := z.currentTemperature

/-- pyephember accessor `zone_target_temperature`. -/
def zone_target_temperature (z : Zone) : ℚ := z.targetTemperature

/-- pyephember accessor `zone_is_boost_active`. -/
def zone_is_boost_active (z : Zone) : Bool := z.isBoostActive

/-- `zone_advance_active`: `zone.get('isadvanceactive', False)`. -/
def zone_advance_active (z : Zone) : Bool := z.isadvanceactive.getD false

/-- `_zone_boostactivation`: `zone.get('boostActivations', None)`. -/
def zone_boostactivation (z : Zone) : Option BoostActivation := z.boostActivations

/-- `zone_boost_temperature`: boost activation's `targettemperature` or `None`. -/
def zone_boost_temperature (z : Zone) : Option ℚ :=
  match zone_boostactivation z with
  | none => none
  | some b => b.targettemperature

/-- `zone_boost_hours`: 0 unless boost is active and an activation record with
`numberofhours` exists. -/
def zone_boost_hours (z : Zone) : ℚ :=
  if !zone_is_boost_active z then 0
  else
    match zone_boostactivation z with
    | none => 0
    | some b => b.numberofhours.getD 0

/-- `zone_is_target_temperature_reached`:
`zone_current_temperature(zone) >= zone_target_temperature(zone)`. -/
def zone_is_target_temperature_reached (z : Zone) : Bool :=
  decide (zone_target_temperature z ≤ zone_current_temperature z)

/-- `zone_is_target_boost_temperature_reached`:
`zone_boost_temperature(zone) >= zone_target_temperature(zone)`.
Note the comparison is between the boost temperature and the zone's target
temperature; the current temperature is not read.  When
`zone_boost_temperature` is `None`, the Python `>=` raises `TypeError`. -/
def zone_is_target_boost_temperature_reached (z : Zone) : Except Unit Bool :=
  match zone_boost_temperature z with
  | none => Except.error ()
  | some bt => Except.ok (decide (zone_target_temperature z ≤ bt))

/-- `scheduletime_to_time`: `strptime(stime, '%H:%M').time()`; a malformed
string makes `strptime` raise `ValueError`. -/
def scheduletime_to_time (stime : Option TimeOfDay) : Except Unit TimeOfDay :=
  match stime with
  | none => Except.error ()
  | some t => Except.ok t

/-- `time.gmtime(s)` reduced to its `(tm_hour, tm_min)` fields. -/
def timeOfEpochSeconds (s : Nat) : TimeOfDay :=
  ⟨s % 86400 / 3600, s % 3600 / 60⟩

/-- The `try/except` block of `zone_is_scheduled_on`: the time of day derived
from `zone['timestamp']`, with the current system time (`now`) silently
substituted when the timestamp is missing or malformed. -/
def zone_ts_time (z : Zone) (now : TimeOfDay) : TimeOfDay :=
  match z.timestamp with
  | none => now
  | some ms => timeOfEpochSeconds (ms / 1000)

/-- One AUTO-mode period check: parse both bounds, then
`start_time <= zone_ts_time <= end_time` (both bounds inclusive). -/
def checkPeriodAuto (ts : TimeOfDay) (p : Period) : Except Unit Bool :=
  match scheduletime_to_time p.starttime with
  | Except.error e => Except.error e
  | Except.ok s =>
    match scheduletime_to_time p.endtime with
    | Except.error e => Except.error e
    | Except.ok en => Except.ok (tle s ts && tle ts en)

/-- The body of the day loop for one day: AUTO checks `p1`, `p2`, `p3` in
order (returning at the first hit); ALL_DAY checks the single window
`[p1.starttime, p3.endtime]`.  ON/OFF never reach the loop. -/
def dayCheck (mode : ZoneMode) (ts : TimeOfDay) (d : DayProgramme) :
    Except Unit Bool :=
  match mode with
  | ZoneMode.AUTO =>
    match checkPeriodAuto ts d.p1 with
    | Except.error e => Except.error e
    | Except.ok true => Except.ok true
    | Except.ok false =>
      match checkPeriodAuto ts d.p2 with
      | Except.error e => Except.error e
      | Except.ok true => Except.ok true
      | Except.ok false => checkPeriodAuto ts d.p3
  | ZoneMode.ALL_DAY =>
    match scheduletime_to_time d.p1.starttime with
    | Except.error e => Except.error e
    | Except.ok s =>
      match scheduletime_to_time d.p3.endtime with
      | Except.error e => Except.error e
      | Except.ok en => Except.ok (tle s ts && tle ts en)
  | _ => Except.ok false

/-- The `for day in ['monday', ..., 'sunday']` loop: first day whose check
hits returns `True`; falling off the loop returns `False`. -/
def loopDays (mode : ZoneMode) (ts : TimeOfDay) :
    List DayProgramme → Except Unit Bool
  | [] => Except.ok false
  | d :: rest =>
    match dayCheck mode ts d with
    | Except.error e => Except.error e
    | Except.ok true => Except.ok true
    | Except.ok false => loopDays mode ts rest

/-- `zone_is_scheduled_on(zone)`.  `now` is the current system wall-clock time
used by the timestamp fallback.  Accessing `zone['programmes']` when the key
is missing raises outside the `try`, hence `Except.error`. -/
def zone_is_scheduled_on (z : Zone) (now : TimeOfDay) : Except Unit Bool :=
  match zone_mode z with
  | ZoneMode.OFF => Except.ok false
  | ZoneMode.ON => Except.ok true
  | m =>
    match z.programmes with
    | none => Except.error ()
    | some pr => loopDays m (zone_ts_time z now) pr.days

/-- The guard of the first `if` of `zone_is_active`, given the already
computed `zone_is_scheduled_on` value:
`(zone_is_scheduled_on(zone) or zone_advance_active(zone)) and not
zone_is_target_temperature_reached(zone)`. -/
def zone_schedule_branch (sched : Bool) (z : Zone) : Bool :=
  (sched || zone_advance_active z) && !zone_is_target_temperature_reached z

/-- `zone_is_active(zone)`: schedule/advance branch first, then the boost
branch (`zone_boost_hours(zone) > 0 and not
zone_is_target_boost_temperature_reached(zone)`), else `False`. -/
def zone_is_active (z : Zone) (now : TimeOfDay) : Except Unit Bool :=
  match zone_is_scheduled_on z now with
  | Except.error e => Except.error e
  | Except.ok sched =>
    if zone_schedule_branch sched z then Except.ok true
    else if decide (0 < zone_boost_hours z) then
      match zone_is_target_boost_temperature_reached z with
      | Except.error e => Except.error e
      | Except.ok reached => if !reached then Except.ok true else Except.ok false
    else Except.ok false

/-- The platform `HVACMode` enum (the values relevant here). -/
inductive HVACMode where
  | HEAT_COOL
  | HEAT
  | OFF
  | COOL
  | AUTO
  | DRY
  | FAN_ONLY
deriving DecidableEq

/-- The `EPH_TO_HA_STATE` dict, as a lookup on the vendor mode name. -/
def EPH_TO_HA_STATE (s : String) : Option HVACMode :=
  if s = "AUTO" then some HVACMode.HEAT_COOL
  else if s = "ON" then some HVACMode.HEAT
  else if s = "OFF" then some HVACMode.OFF
  else none

/-- `HA_STATE_TO_EPH`, the dict comprehension inverting `EPH_TO_HA_STATE`. -/
def HA_STATE_TO_EPH (m : HVACMode) : Option String :=
  match m with
  | HVACMode.HEAT_COOL => some "AUTO"
  | HVACMode.HEAT => some "ON"
  | HVACMode.OFF => some "OFF"
  | _ => none

/-- `getattr(ZoneMode, name, None)`: passing `None` as the attribute name
raises `TypeError` (the default does not apply); a string name looks up the
enum member, `None` if absent. -/
def getattrZoneMode : Option String → Except Unit (Option ZoneMode)
  | none => Except.error ()
  | some s =>
    Except.ok
      (if s = "AUTO" then some ZoneMode.AUTO
       else if s = "ALL_DAY" then some ZoneMode.ALL_DAY
       else if s = "ON" then some ZoneMode.ON
       else if s = "OFF" then some ZoneMode.OFF
       else none)

/-- `map_mode_hass_eph`: `getattr(ZoneMode, HA_STATE_TO_EPH.get(mode), None)`. -/
def map_mode_hass_eph (m : HVACMode) : Except Unit (Option ZoneMode) :=
  getattrZoneMode (HA_STATE_TO_EPH m)

/-- `map_mode_eph_hass`: `EPH_TO_HA_STATE.get(mode.name, HVACMode.HEAT_COOL)`. -/
def map_mode_eph_hass (m : ZoneMode) : HVACMode :=
  (EPH_TO_HA_STATE m.name).getD HVACMode.HEAT_COOL

/-- The observable outcome of `set_hvac_mode`: `ok (some (name, mode))` is the
vendor call `set_mode_by_name(name, mode)`, `ok none` is the logged invalid
request with no mutation, `error` an escaping exception. -/
def set_hvac_mode (zoneName : String) (hvac : HVACMode) :
    Except Unit (Option (String × ZoneMode)) :=
  match map_mode_hass_eph hvac with
  | Except.error e => Except.error e
  | Except.ok (some m) => Except.ok (some (zoneName, m))
  | Except.ok none => Except.ok none

/-- `min_temp` property: the zone target for hot water, else 5.0. -/
def min_temp (hot_water : Bool) (target : ℚ) : ℚ :=
  if hot_water then target else 5

/-- `max_temp` property: the zone target for hot water, else 35.0. -/
def max_temp (hot_water : Bool) (target : ℚ) : ℚ :=
  if hot_water then target else 35

/-- `set_temperature`: `none` result = silently rejected (no vendor call),
`some t` = forwarded to `set_target_temperture_by_name` with temperature `t`.
The argument `temperature` is `kwargs.get(ATTR_TEMPERATURE)`. -/
def set_temperature (hot_water : Bool) (target : ℚ) (temperature : Option ℚ) :
    Option ℚ :=
  match temperature with
  | none => none
  | some t =>
    if hot_water then none
    else if t = target then none
    else if t > max_temp hot_water target ∨ t < min_temp hot_water target then none
    else some t

/-- A vendor-client call recorded as data. -/
inductive VendorCall where
  | activateBoost (zoneName : String) (targetTemperature : ℚ)
deriving DecidableEq

/-- `turn_aux_heat_on`:
`activate_boost_by_name(self._zone_name, zone_target_temperature(self._zone))`. -/
def turn_aux_heat_on (z : Zone) : VendorCall :=
  VendorCall.activateBoost (zone_name z) (zone_target_temperature z)

/-- Spec-side notion of "today": the weekday index (Monday = 0, as in
`time.struct_time.tm_wday`) of an epoch-millisecond timestamp.  The source
never computes a weekday; this definition only serves to state the spec's
"today's weekday's periods". -/
def weekdayOfTimestampMs (ms : Nat) : Nat :=
  (ms / 1000 / 86400 + 3) % 7

/-- Reference predicate: the time of day lies in the (parseable) period,
bounds inclusive. -/
def timeInPeriod (ts : TimeOfDay) (p : Period) : Bool :=
  match p.starttime, p.endtime with
  | some s, some e => tle s ts && tle ts e
  | _, _ => false

/-- Reference predicate: some of the day's three periods contains `ts`
(the AUTO rule for one day). -/
def dayMatchesAuto (ts : TimeOfDay) (d : DayProgramme) : Bool :=
  timeInPeriod ts d.p1 || timeInPeriod ts d.p2 || timeInPeriod ts d.p3

/-- Reference predicate: `ts` lies in the window from the day's first period
start to its third period end (the ALL_DAY rule for one day). -/
def dayMatchesAllDay (ts : TimeOfDay) (d : DayProgramme) : Bool :=
  match d.p1.starttime, d.p3.endtime with
  | some s, some e => tle s ts && tle ts e
  | _, _ => false

/-- Both time strings of the period parse. -/
def periodWF (p : Period) : Bool :=
  p.starttime.isSome && p.endtime.isSome

/-- All six time strings of the day parse. -/
def dayWF (d : DayProgramme) : Bool :=
  periodWF d.p1 && periodWF d.p2 && periodWF d.p3

/-- Every time string of the whole week parses. -/
def programmesWF (pr : Programmes) : Bool :=
  pr.days.all dayWF

/-- The two time strings the ALL_DAY rule reads parse. -/
def dayWFAllDay (d : DayProgramme) : Bool :=
  d.p1.starttime.isSome && d.p3.endtime.isSome

/-- Every day's ALL_DAY window bounds parse. -/
def programmesWFAllDay (pr : Programmes) : Bool :=
  pr.days.all dayWFAllDay

/-- Build a period with parseable bounds `sh:sm` to `eh:em`. -/
def mkPeriod (sh sm eh em : Nat) : Period :=
  ⟨some ⟨sh, sm⟩, some ⟨eh, em⟩⟩

/-- A day whose three periods are all the degenerate window 00:00-00:00. -/
def idleDay : DayProgramme :=
  ⟨mkPeriod 0 0 0 0, mkPeriod 0 0 0 0, mkPeriod 0 0 0 0⟩

/-- Zone for claim C1: boost active for 2 hours towards 21.0, current
temperature 19.0, zone target 21.0, schedule off (mode OFF), no advance. -/
def boostBugZone : Zone :=
  { mode := ZoneMode.OFF, name := "lounge", currentTemperature := 19,
    targetTemperature := 21, isHotWater := false, isBoostActive := true,
    timestamp := some 0, programmes := none, isadvanceactive := none,
    boostActivations := some ⟨some 21, some 2⟩ }

/-- Weekly programme where only Monday has a period (09:00-19:00) away from
midnight. -/
def wedAutoProgrammes : Programmes :=
  { monday := ⟨mkPeriod 9 0 19 0, mkPeriod 0 0 0 0, mkPeriod 0 0 0 0⟩,
    tuesday := idleDay, wednesday := idleDay, thursday := idleDay,
    friday := idleDay, saturday := idleDay, sunday := idleDay }

/-- Zone for claim C2's counterexample: AUTO mode, timestamp
583200000 ms = Wednesday 1970-01-07 18:00 GMT, programme above. -/
def wedAutoZone : Zone :=
  { mode := ZoneMode.AUTO, name := "hall", currentTemperature := 18,
    targetTemperature := 20, isHotWater := false, isBoostActive := false,
    timestamp := some 583200000, programmes := some wedAutoProgrammes,
    isadvanceactive := none, boostActivations := none }

/-- Weekly programme whose Monday ALL_DAY window is 06:00-22:00 but whose
Wednesday window is 06:00-07:00. -/
def wedAllDayProgrammes : Programmes :=
  { monday := ⟨mkPeriod 6 0 8 0, mkPeriod 9 0 10 0, mkPeriod 20 0 22 0⟩,
    tuesday := idleDay,
    wednesday := ⟨mkPeriod 6 0 6 30, mkPeriod 6 30 6 45, mkPeriod 6 45 7 0⟩,
    thursday := idleDay, friday := idleDay, saturday := idleDay,
    sunday := idleDay }

/-- Zone for claim C4's counterexample: ALL_DAY mode, timestamp
554400000 ms = Wednesday 1970-01-07 10:00 GMT, programme above. -/
def wedAllDayZone : Zone :=
  { mode := ZoneMode.ALL_DAY, name := "hall", currentTemperature := 18,
    targetTemperature := 20, isHotWater := false, isBoostActive := false,
    timestamp := some 554400000, programmes := some wedAllDayProgrammes,
    isadvanceactive := none, boostActivations := none }

/-- Zone for claim C6's counterexample: AUTO mode with the `programmes` key
missing. -/
def noProgZone : Zone :=
  { mode := ZoneMode.AUTO, name := "hall", currentTemperature := 18,
    targetTemperature := 20, isHotWater := false, isBoostActive := false,
    timestamp := none, programmes := none, isadvanceactive := none,
    boostActivations := none }

/-- Well-formed weekly programme with a 09:00-17:00 period on Monday. -/
def wfProgrammes : Programmes :=
  { monday := ⟨mkPeriod 9 0 17 0, mkPeriod 0 0 0 0, mkPeriod 0 0 0 0⟩,
    tuesday := idleDay, wednesday := idleDay, thursday := idleDay,
    friday := idleDay, saturday := idleDay, sunday := idleDay }

/-- AUTO-mode zone with well-formed programmes and a missing timestamp. -/
def autoZoneWF : Zone :=
  { mode := ZoneMode.AUTO, name := "hall", currentTemperature := 18,
    targetTemperature := 20, isHotWater := false, isBoostActive := false,
    timestamp := none, programmes := some wfProgrammes,
    isadvanceactive := none, boostActivations := none }

/-- ALL_DAY-mode zone with well-formed programmes and a missing timestamp. -/
def allDayZoneWF : Zone :=
  { mode := ZoneMode.ALL_DAY, name := "hall", currentTemperature := 18,
    targetTemperature := 20, isHotWater := false, isBoostActive := false,
    timestamp := none, programmes := some wedAllDayProgrammes,
    isadvanceactive := none, boostActivations := none }

/-- ON-mode heating zone (current 18.0 below target 20.0). -/
def onZone : Zone :=
  { mode := ZoneMode.ON, name := "on-zone", currentTemperature := 18,
    targetTemperature := 20, isHotWater := false, isBoostActive := false,
    timestamp := none, programmes := none, isadvanceactive := none,
    boostActivations := none }

/-- OFF-mode zone with rich schedule data, for claim C5. -/
def offZone : Zone :=
  { mode := ZoneMode.OFF, name := "off-zone", currentTemperature := 18,
    targetTemperature := 20, isHotWater := false, isBoostActive := false,
    timestamp := some 583200000, programmes := some wedAutoProgrammes,
    isadvanceactive := some true, boostActivations := none }

theorem checkPeriodAuto_wf (ts : TimeOfDay) (p : Period) (h : periodWF p = true) :
    checkPeriodAuto ts p = Except.ok (timeInPeriod ts p) := by
  rcases p with ⟨s, e⟩
  cases s <;> cases e <;>
    simp_all [periodWF, checkPeriodAuto, timeInPeriod, scheduletime_to_time]

theorem dayCheck_auto_wf (ts : TimeOfDay) (d : DayProgramme)
    (h : dayWF d = true) :
    dayCheck ZoneMode.AUTO ts d = Except.ok (dayMatchesAuto ts d) := by
  rw [dayWF, Bool.and_eq_true, Bool.and_eq_true] at h
  obtain ⟨⟨h1, h2⟩, h3⟩ := h
  simp only [dayCheck, checkPeriodAuto_wf ts d.p1 h1, checkPeriodAuto_wf ts d.p2 h2,
    checkPeriodAuto_wf ts d.p3 h3, dayMatchesAuto]
  cases timeInPeriod ts d.p1 <;> cases timeInPeriod ts d.p2 <;>
    cases timeInPeriod ts d.p3 <;> simp

theorem dayCheck_allday_wf (ts : TimeOfDay) (d : DayProgramme)
    (h : dayWFAllDay d = true) :
    dayCheck ZoneMode.ALL_DAY ts d = Except.ok (dayMatchesAllDay ts d) := by
  rw [dayWFAllDay, Bool.and_eq_true] at h
  obtain ⟨s, hs⟩ := Option.isSome_iff_exists.mp h.1
  obtain ⟨e, he⟩ := Option.isSome_iff_exists.mp h.2
  simp [dayCheck, dayMatchesAllDay, hs, he, scheduletime_to_time]

theorem dayWF_allday (d : DayProgramme) (h : dayWF d = true) :
    dayWFAllDay d = true := by
  simp only [dayWF, periodWF, Bool.and_eq_true] at h
  simp only [dayWFAllDay, Bool.and_eq_true]
  exact ⟨h.1.1.1, h.2.2⟩

theorem loopDays_auto_wf (ts : TimeOfDay) (ds : List DayProgramme)
    (h : ∀ d ∈ ds, dayWF d = true) :
    loopDays ZoneMode.AUTO ts ds = Except.ok (ds.any (dayMatchesAuto ts)) := by
  induction ds with
  | nil => rfl
  | cons d rest ih =>
    have hd := h d (List.mem_cons_self d rest)
    have hrest : ∀ x ∈ rest, dayWF x = true :=
      fun x hx => h x (List.mem_cons_of_mem _ hx)
    simp only [loopDays, dayCheck_auto_wf ts d hd, List.any_cons]
    cases hm : dayMatchesAuto ts d
    · simpa using ih hrest
    · simp

theorem loopDays_allday_wf (ts : TimeOfDay) (ds : List DayProgramme)
    (h : ∀ d ∈ ds, dayWFAllDay d = true) :
    loopDays ZoneMode.ALL_DAY ts ds = Except.ok (ds.any (dayMatchesAllDay ts)) := by
  induction ds with
  | nil => rfl
  | cons d rest ih =>
    have hd := h d (List.mem_cons_self d rest)
    have hrest : ∀ x ∈ rest, dayWFAllDay x = true :=
      fun x hx => h x (List.mem_cons_of_mem _ hx)
    simp only [loopDays, dayCheck_allday_wf ts d hd, List.any_cons]
    cases hm : dayMatchesAllDay ts d
    · simpa using ih hrest
    · simp

theorem zone_is_scheduled_on_off (z : Zone) (now : TimeOfDay)
    (h : zone_mode z = ZoneMode.OFF) :
    zone_is_scheduled_on z now = Except.ok false := by
  unfold zone_is_scheduled_on
  rw [h]

theorem zone_is_scheduled_on_on (z : Zone) (now : TimeOfDay)
    (h : zone_mode z = ZoneMode.ON) :
    zone_is_scheduled_on z now = Except.ok true := by
  unfold zone_is_scheduled_on
  rw [h]

theorem zone_is_scheduled_on_auto (z : Zone) (now : TimeOfDay) (pr : Programmes)
    (hm : zone_mode z = ZoneMode.AUTO) (hp : z.programmes = some pr)
    (hwf : programmesWF pr = true) :
    zone_is_scheduled_on z now =
      Except.ok (pr.days.any (dayMatchesAuto (zone_ts_time z now))) := by
  unfold zone_is_scheduled_on
  rw [hm, hp]
  exact loopDays_auto_wf (zone_ts_time z now) pr.days (List.all_eq_true.mp hwf)

theorem zone_is_scheduled_on_allday (z : Zone) (now : TimeOfDay) (pr : Programmes)
    (hm : zone_mode z = ZoneMode.ALL_DAY) (hp : z.programmes = some pr)
    (hwf : programmesWFAllDay pr = true) :
    zone_is_scheduled_on z now =
      Except.ok (pr.days.any (dayMatchesAllDay (zone_ts_time z now))) := by
  unfold zone_is_scheduled_on
  rw [hm, hp]
  exact loopDays_allday_wf (zone_ts_time z now) pr.days (List.all_eq_true.mp hwf)

/-- C1: evaluation at the spec's own example.  A zone with boost hours = 2,
boost target 21.0, current temperature 19.0 and schedule off (mode OFF, no
advance) is claimed actively heating; the code instead compares the boost
temperature (21.0) against the zone target temperature (21.0), deems the
boost target "reached" without ever reading the current temperature, and
reports the zone as not active. -/
theorem ephember_C1_eval :
    zone_is_active boostBugZone ⟨12, 0⟩ = Except.ok false ∧
    zone_boost_hours boostBugZone = 2 ∧
    zone_boost_temperature boostBugZone = some 21 ∧
    zone_current_temperature boostBugZone < 21 ∧
    zone_is_scheduled_on boostBugZone ⟨12, 0⟩ = Except.ok false ∧
    zone_advance_active boostBugZone = false ∧
    zone_is_target_boost_temperature_reached boostBugZone = Except.ok true :=
  ⟨rfl, rfl, rfl, by norm_num [zone_current_temperature, boostBugZone], rfl, rfl, rfl⟩

/-- C2 (counterexample): the AUTO rule does not consult only today's weekday.
`wedAutoZone`'s timestamp is Wednesday 18:00; Wednesday's own three periods do
not contain 18:00 (`dayCheck` on them yields `false`), yet
`zone_is_scheduled_on` returns `true`, because Monday's 09:00-19:00 period
matches — every day of the week is checked. -/
theorem ephember_C2_counterexample :
    zone_is_scheduled_on wedAutoZone ⟨0, 0⟩ = Except.ok true ∧
    weekdayOfTimestampMs 583200000 = 2 ∧
    zone_ts_time wedAutoZone ⟨0, 0⟩ = ⟨18, 0⟩ ∧
    dayCheck ZoneMode.AUTO ⟨18, 0⟩ wedAutoProgrammes.wednesday = Except.ok false :=
  ⟨rfl, rfl, rfl, rfl⟩

/-- C2 (amended): for a zone in AUTO mode whose weekly programme parses, the
zone is scheduled-on if and only if its time of day falls within any of the 3
periods (inclusive bounds) of ANY of the seven days' programmes — the weekday
of the timestamp is ignored. -/
theorem ephember_C2_amended (z : Zone) (now : TimeOfDay) (pr : Programmes)
    (hm : zone_mode z = ZoneMode.AUTO) (hp : z.programmes = some pr)
    (hwf : programmesWF pr = true) :
    zone_is_scheduled_on z now =
      Except.ok (pr.days.any (dayMatchesAuto (zone_ts_time z now))) :=
  zone_is_scheduled_on_auto z now pr hm hp hwf

/-- C2 witness: the amended rule applied to a concrete AUTO zone at 12:00 with
a 09:00-17:00 Monday period: scheduled-on. -/
theorem ephember_C2_amended_witness :
    zone_is_scheduled_on autoZoneWF ⟨12, 0⟩ = Except.ok true := by
  have h := ephember_C2_amended autoZoneWF ⟨12, 0⟩ wfProgrammes rfl rfl rfl
  simpa using h

/-- C3: in `zone_is_active`, the schedule branch fires exactly when
(scheduled-on OR the advance flag) holds AND the current temperature is
strictly below the target temperature, and when it fires the zone is reported
actively heating. -/
theorem ephember_C3 (z : Zone) (now : TimeOfDay) (sched : Bool)
    (hs : zone_is_scheduled_on z now = Except.ok sched) :
    (zone_schedule_branch sched z = true ↔
      ((sched = true ∨ zone_advance_active z = true) ∧
        zone_current_temperature z < zone_target_temperature z)) ∧
    (zone_schedule_branch sched z = true →
      zone_is_active z now = Except.ok true) := by
  constructor
  · simp [zone_schedule_branch, zone_is_target_temperature_reached,
      Bool.and_eq_true, Bool.or_eq_true, not_le]
  · intro hb
    unfold zone_is_active
    rw [hs]
    simp [hb]

/-- C3 witness: an ON-mode zone below target is actively heating via the
schedule branch. -/
theorem ephember_C3_witness :
    zone_is_active onZone ⟨6, 0⟩ = Except.ok true := by
  have h := ephember_C3 onZone ⟨6, 0⟩ true rfl
  exact h.2 (by decide)

/-- C4 (counterexample): the ALL_DAY rule does not use only today's window.
`wedAllDayZone`'s timestamp is Wednesday 10:00; Wednesday's own window
06:00-07:00 does not contain 10:00 (`dayCheck` yields `false`), yet
`zone_is_scheduled_on` returns `true`, because Monday's window 06:00-22:00
matches — every day of the week is checked. -/
theorem ephember_C4_counterexample :
    zone_is_scheduled_on wedAllDayZone ⟨0, 0⟩ = Except.ok true ∧
    weekdayOfTimestampMs 554400000 = 2 ∧
    zone_ts_time wedAllDayZone ⟨0, 0⟩ = ⟨10, 0⟩ ∧
    dayCheck ZoneMode.ALL_DAY ⟨10, 0⟩ wedAllDayProgrammes.wednesday =
      Except.ok false :=
  ⟨rfl, rfl, rfl, rfl⟩

/-- C4 (amended): for a zone in ALL_DAY mode whose window bounds parse, the
zone is scheduled-on if and only if its time of day falls within the window
[period-1 start, period-3 end] (inclusive) of ANY of the seven days'
programmes — the weekday of the timestamp is ignored; inner period boundaries
are ignored. -/
theorem ephember_C4_amended (z : Zone) (now : TimeOfDay) (pr : Programmes)
    (hm : zone_mode z = ZoneMode.ALL_DAY) (hp : z.programmes = some pr)
    (hwf : programmesWFAllDay pr = true) :
    zone_is_scheduled_on z now =
      Except.ok (pr.days.any (dayMatchesAllDay (zone_ts_time z now))) :=
  zone_is_scheduled_on_allday z now pr hm hp hwf

/-- C4 witness: the amended rule applied to a concrete ALL_DAY zone at 10:00
with a 06:00-22:00 Monday window: scheduled-on. -/
theorem ephember_C4_amended_witness :
    zone_is_scheduled_on allDayZoneWF ⟨10, 0⟩ = Except.ok true := by
  have h := ephember_C4_amended allDayZoneWF ⟨10, 0⟩ wedAllDayProgrammes rfl rfl rfl
  simpa using h

/-- C5: mode OFF makes `zone_is_scheduled_on` false and mode ON makes it true,
for every zone whatsoever (schedule contents, timestamp and all other fields
are irrelevant, and no exception can occur in these modes). -/
theorem ephember_C5 (z : Zone) (now : TimeOfDay) :
    (zone_mode z = ZoneMode.OFF → zone_is_scheduled_on z now = Except.ok false) ∧
    (zone_mode z = ZoneMode.ON → zone_is_scheduled_on z now = Except.ok true) :=
  ⟨zone_is_scheduled_on_off z now, zone_is_scheduled_on_on z now⟩

/-- C5 witness: a concrete OFF zone with a rich schedule is not scheduled-on;
a concrete ON zone with no schedule data at all is scheduled-on. -/
theorem ephember_C5_witness :
    zone_is_scheduled_on offZone ⟨18, 0⟩ = Except.ok false ∧
    zone_is_scheduled_on onZone ⟨18, 0⟩ = Except.ok true :=
  ⟨(ephember_C5 offZone ⟨18, 0⟩).1 rfl, (ephember_C5 onZone ⟨18, 0⟩).2 rfl⟩

theorem programmesWF_allday (pr : Programmes) (h : programmesWF pr = true) :
    programmesWFAllDay pr = true := by
  rw [programmesWFAllDay, List.all_eq_true]
  intro d hd
  exact dayWF_allday d (List.all_eq_true.mp h d hd)

/-- C6 (counterexample): `zone_is_scheduled_on` is not exception-free for
every input.  An AUTO-mode zone whose `programmes` key is missing raises
(`KeyError` outside the `try` block), even though its timestamp problem alone
would have been swallowed. -/
theorem ephember_C6_counterexample :
    zone_is_scheduled_on noProgZone ⟨0, 0⟩ = Except.error () := rfl

/-- C6 (amended): when the schedule itself is present and all its time strings
parse, `zone_is_scheduled_on` never raises — and a missing or malformed
timestamp is silently replaced by the current system time (`zone_ts_time`
falls back to `now`).  Exceptions escape only through malformed or missing
schedule entries. -/
theorem ephember_C6_amended (z : Zone) (now : TimeOfDay) (pr : Programmes)
    (hp : z.programmes = some pr) (hwf : programmesWF pr = true) :
    (zone_is_scheduled_on z now).isOk = true ∧
    (z.timestamp = none → zone_ts_time z now = now) := by
  constructor
  · cases hm : zone_mode z with
    | AUTO => rw [zone_is_scheduled_on_auto z now pr hm hp hwf]; rfl
    | ALL_DAY =>
      rw [zone_is_scheduled_on_allday z now pr hm hp (programmesWF_allday pr hwf)]
      rfl
    | ON => rw [zone_is_scheduled_on_on z now hm]; rfl
    | OFF => rw [zone_is_scheduled_on_off z now hm]; rfl
  · intro h
    unfold zone_ts_time
    rw [h]

/-- C6 witness: a well-formed AUTO zone with a missing timestamp evaluates
without an exception, and the fallback substitutes the current time 07:30. -/
theorem ephember_C6_amended_witness :
    (zone_is_scheduled_on autoZoneWF ⟨7, 30⟩).isOk = true ∧
    zone_ts_time autoZoneWF ⟨7, 30⟩ = ⟨7, 30⟩ := by
  have h := ephember_C6_amended autoZoneWF ⟨7, 30⟩ wfProgrammes rfl rfl
  exact ⟨h.1, h.2 rfl⟩

/-- C7: platform mode → vendor mode → platform mode is the identity on
heat-cool, heat and off (`map_mode_hass_eph` then `map_mode_eph_hass`). -/
theorem ephember_C7_roundtrip :
    map_mode_hass_eph HVACMode.HEAT_COOL = Except.ok (some ZoneMode.AUTO) ∧
    map_mode_eph_hass ZoneMode.AUTO = HVACMode.HEAT_COOL ∧
    map_mode_hass_eph HVACMode.HEAT = Except.ok (some ZoneMode.ON) ∧
    map_mode_eph_hass ZoneMode.ON = HVACMode.HEAT ∧
    map_mode_hass_eph HVACMode.OFF = Except.ok (some ZoneMode.OFF) ∧
    map_mode_eph_hass ZoneMode.OFF = HVACMode.OFF :=
  ⟨rfl, rfl, rfl, rfl, rfl, rfl⟩

/-- C8: evaluation at an invalid platform mode (cool).  The dict lookup yields
`None`, so `getattr(ZoneMode, None, None)` raises `TypeError`; `set_hvac_mode`
therefore raises instead of reaching its log-and-skip branch.  No vendor
mutation happens, but "logged, no exception" is false: the `mode is None`
branch is unreachable. -/
theorem ephember_C8_eval :
    HA_STATE_TO_EPH HVACMode.COOL = none ∧
    map_mode_hass_eph HVACMode.COOL = Except.error () ∧
    set_hvac_mode "zone" HVACMode.COOL = Except.error () :=
  ⟨rfl, rfl, rfl⟩

theorem set_temperature_none_iff (hw : Bool) (target u : ℚ) :
    set_temperature hw target (some u) = none ↔
      (hw = true ∨ u = target ∨ 35 < u ∨ u < 5) := by
  cases hw
  · simp only [set_temperature, max_temp, min_temp, Bool.false_eq_true,
      if_false, false_or, gt_iff_lt]
    split_ifs with h2 h3
    · simp [h2]
    · simp only [true_iff]
      tauto
    · simp only [reduceCtorEq, false_iff]
      tauto
  · simp [set_temperature]

theorem set_temperature_forwards (hw : Bool) (target u : ℚ)
    (h : ¬(hw = true ∨ u = target ∨ 35 < u ∨ u < 5)) :
    set_temperature hw target (some u) = some u := by
  push_neg at h
  obtain ⟨hhw, hne, h35, h5⟩ := h
  cases hw
  · simp only [set_temperature, max_temp, min_temp, Bool.false_eq_true,
      if_false, gt_iff_lt]
    rw [if_neg hne, if_neg (by push_neg; exact ⟨h35, h5⟩)]
  · exact absurd rfl hhw

/-- C9: `set_temperature` silently rejects (no vendor call, `none`) exactly
when the zone is hot-water, the requested temperature equals the current
target, or it lies outside [5.0, 35.0]; otherwise it forwards the requested
temperature to the vendor client.  In particular 40.0 is always rejected. -/
theorem ephember_C9 (hw : Bool) (target t : ℚ) :
    (set_temperature hw target (some t) = none ↔
      (hw = true ∨ t = target ∨ 35 < t ∨ t < 5)) ∧
    (¬(hw = true ∨ t = target ∨ 35 < t ∨ t < 5) →
      set_temperature hw target (some t) = some t) ∧
    set_temperature hw target (some 40) = none := by
  refine ⟨set_temperature_none_iff hw target t, set_temperature_forwards hw target t, ?_⟩
  rw [set_temperature_none_iff hw target 40]
  norm_num

/-- C9 witness: a 21.0 write against target 20.0 is forwarded; a 40.0 write is
rejected. -/
theorem ephember_C9_witness :
    set_temperature false 20 (some 21) = some 21 ∧
    set_temperature false 20 (some 40) = none := by
  have h := ephember_C9 false 20 21
  refine ⟨h.2.1 (by norm_num), h.2.2⟩

/-- C10: `turn_aux_heat_on` always issues the boost-activation vendor call
with exactly the zone's current target temperature as the boost target; any
boost target it passes equals `zone_target_temperature`. -/
theorem ephember_C10 (z : Zone) :
    turn_aux_heat_on z =
      VendorCall.activateBoost (zone_name z) (zone_target_temperature z) ∧
    (∀ n t, turn_aux_heat_on z = VendorCall.activateBoost n t →
      t = zone_target_temperature z) := by
  refine ⟨rfl, ?_⟩
  intro n t h
  cases h
  rfl

/-- C10 witness: on the concrete ON-mode zone, the boost target passed is its
target temperature 20.0. -/
theorem ephember_C10_witness :
    (20 : ℚ) = zone_target_temperature onZone :=
  (ephember_C10 onZone).2 "on-zone" 20 rfl
